import Mathlib

/-
Verification of the wasm interpreter core (src/interpreter/runner.rs,
src/interpreter/program.rs) as a shallow embedding in Lean 4.

The embedding follows the Rust source line by line.  Types that the runner
imports from modules outside src/ (elements::Opcode, interpreter::value,
interpreter::module, interpreter::Error) are modelled from the specification;
each such definition carries a doc comment starting with
`Modelled from the spec:`.  Rust panics (usize underflow, out-of-bounds
indexing, unimplemented!()) are represented by the sentinel `Failure.crash`;
fuel exhaustion of the embedding's recursion is `Failure.fuel`.
-/

namespace WasmRunner

end WasmRunner

deriving instance DecidableEq for Except

namespace WasmRunner

/-- Modelled from the spec: elements::ValueType (the decoder crate is outside
src/).  The four wasm value types. -/
inductive ValueType
  | i32
  | i64
  | f32
  | f64
deriving DecidableEq

/-- Embeds elements::BlockType as used by runner.rs: either no result or a
single typed result. -/
inductive BlockType
  | NoResult
  | Value (t : ValueType)
deriving DecidableEq

/-- Modelled from the spec: elements::FunctionType — parameter types plus an
optional return type (`return_type()` in the source). -/
structure FunctionType where
  params : List ValueType
  ret : Option ValueType
deriving DecidableEq

/-- Modelled from the spec: interpreter::value::RuntimeValue, a tagged union of
the four wasm value kinds.  Integer variants store the N-bit pattern as a
natural number below 2^N; float variants store the IEEE-754 bit pattern. -/
inductive RuntimeValue
  | I32 (n : Nat)
  | I64 (n : Nat)
  | F32 (bits : Nat)
  | F64 (bits : Nat)
deriving DecidableEq

/-- Modelled from the spec: interpreter::Error, the error taxonomy of section 7
(Trap, value/frame-stack errors, local errors, program errors, interpreter
errors, NotImplemented). -/
inductive Error
  | Trap
  | NotImplemented
  | Program (msg : String)
  | ValueStack (msg : String)
  | FrameStack (msg : String)
  | Local (msg : String)
  | Interpreter (msg : String)
deriving DecidableEq

/-- Outcome space of the embedded runner: an ordinary interpreter error
(Rust `Err`), a Rust panic (usize underflow, out-of-bounds index,
`unimplemented!()`), or exhaustion of the embedding's fuel. -/
inductive Failure
  | err (e : Error)
  | crash
  | fuel
deriving DecidableEq

/-- Embeds InstructionOutcome from runner.rs. -/
inductive InstructionOutcome
  | RunInstruction
  | RunNextInstruction
  | PopFrame (n : Nat)
  | Return
deriving DecidableEq

/-- Modelled from the spec: elements::Opcode restricted to the opcodes the
claims exercise; immediates follow the source's dispatcher
(offset and align for memory access, a label index for branches). -/
inductive Opcode
  | Unreachable
  | Nop
  | Block (bt : BlockType) (body : List Opcode)
  | Loop (bt : BlockType) (body : List Opcode)
  | If (bt : BlockType) (body : List Opcode)
  | Else
  | End
  | Br (k : Nat)
  | BrIf (k : Nat)
  | BrTable (table : List Nat) (dflt : Nat)
  | Return
  | Drop
  | Select
  | GetLocal (i : Nat)
  | SetLocal (i : Nat)
  | TeeLocal (i : Nat)
  | I32Load (offset align : Nat)
  | I64Load (offset align : Nat)
  | I32Store (offset align : Nat)
  | CurrentMemory
  | GrowMemory
  | I32Const (n : Nat)
  | I64Const (n : Nat)
  | I32Sub
  | I32Eqz

/-- Wasm page size in bytes (64 KiB), per the spec's data model. -/
def pageSize : Nat := 65536

/-- Modelled from the spec: interpreter::memory::MemoryInstance (outside src/):
a byte array with an optional page cap. -/
structure MemoryInstance where
  data : List Nat
  maxPages : Option Nat
deriving DecidableEq

/-- Modelled from the spec: `get(addr, n)` returns n bytes starting at addr;
traps if addr + n overflows u32 or exceeds the current size. -/
def memGet (m : MemoryInstance) (addr n : Nat) : Except Failure (List Nat) :=
  if addr + n < 4294967296 ∧ addr + n ≤ m.data.length then
    .ok ((m.data.drop addr).take n)
  else
    .error (.err .Trap)

/-- Modelled from the spec: `size()` returns the current page count. -/
def memSize (m : MemoryInstance) : Nat :=
  m.data.length / pageSize

/-- Modelled from the spec: `grow(delta)` grows by delta pages and returns the
previous page count, or u32 −1 if growth would exceed the cap. -/
def memGrow (m : MemoryInstance) (delta : Nat) : Nat × MemoryInstance :=
  let prev := memSize m
  if prev + delta ≤ (m.maxPages.getD 65536) then
    (prev, { m with data := m.data ++ List.replicate (delta * pageSize) 0 })
  else
    (4294967295, m)

/-- Modelled from the spec: interpreter::module::ModuleInstance (outside src/),
restricted to the default linear memory (index 0) that runner.rs accesses. -/
structure ModuleInstance where
  memory : Option MemoryInstance
deriving DecidableEq

/-- Modelled from the spec: elements::Module (outside src/) — the decoded
module; only the memory limits and a well-formedness flag matter to the
instantiation path the claims exercise. -/
structure Module where
  memoryLimits : Option (Nat × Option Nat) := none
  wellFormed : Bool := true
deriving DecidableEq

/-- Embeds Module::default() from the source's run_function. -/
def Module.defaultModule : Module := {}

/-- Modelled from the spec: ModuleInstance::new (outside src/) — constructs an
instance, resolving imports; it can fail with a non-Program error on an
ill-formed module, and Error::Program is produced only by add_module's name
collision check. -/
def moduleInstanceNew (m : Module) : Except Error ModuleInstance :=
  if m.wellFormed then
    .ok { memory := m.memoryLimits.map
            (fun lim => { data := List.replicate (lim.1 * pageSize) 0, maxPages := lim.2 }) }
  else
    .error (.Interpreter "failed to instantiate module")

/-- Embeds BlockFrame from runner.rs: resume position, value-stack limit and
block signature. -/
structure BlockFrame where
  position : Nat
  value_limit : Nat
  signature : BlockType
deriving DecidableEq

/-- Embeds FunctionContext from runner.rs.  The value stack and frame stack are
lists whose head is the top (the back of the source's VecDeque). -/
structure FunctionContext where
  module : ModuleInstance
  value_stack : List RuntimeValue
  frame_stack : List BlockFrame
  locals : List RuntimeValue
  position : Nat
deriving DecidableEq

/-- Checked usize subtraction: a Rust debug-mode underflow is a panic,
represented by `Failure.crash`. -/
def natSubChecked (a b : Nat) : Except Failure Nat :=
  if b ≤ a then .ok (a - b) else .error .crash

/-- Embeds the match in run_function and FunctionContext::new that turns the
function's return type into the outer frame's BlockType. -/
def retBlockType (f : FunctionType) : BlockType :=
  match f.ret with
  | some t => .Value t
  | none => .NoResult

/-- Embeds FunctionContext::push_value (VecDeque::push_back; list head is the
stack top).  Context updates are written by destructuring the constructor,
mirroring the source's in-place field mutation. -/
def pushValue : FunctionContext → RuntimeValue → FunctionContext
  | .mk m vs fs ls p, v => .mk m (v :: vs) fs ls p

/-- Embeds FunctionContext::pop_value (VecDeque::pop_back with an error on an
empty stack). -/
def popValue : FunctionContext → Except Failure (RuntimeValue × FunctionContext)
  | .mk m vs fs ls p =>
    match vs with
    | [] => .error (.err (.ValueStack "non-empty value stack expected"))
    | v :: rest => .ok (v, .mk m rest fs ls p)

/-- Embeds FunctionContext::top_value. -/
def topValue (ctx : FunctionContext) : Except Failure RuntimeValue :=
  match ctx.value_stack with
  | [] => .error (.err (.ValueStack "non-empty value stack expected"))
  | v :: _ => .ok v

/-- Modelled from the spec: TryInto of a RuntimeValue into a boolean condition
(interpreter::value is outside src/) — an i32 is true iff non-zero; any other
tag is a value-stack type error. -/
def tryIntoBool : RuntimeValue → Except Failure Bool
  | .I32 n => .ok (n != 0)
  | _ => .error (.err (.ValueStack "expected value of type i32"))

/-- Modelled from the spec: TryInto of a RuntimeValue into an i32/u32 bit
pattern (interpreter::value is outside src/). -/
def tryIntoI32 : RuntimeValue → Except Failure Nat
  | .I32 n => .ok n
  | _ => .error (.err (.ValueStack "expected value of type i32"))

/-- Embeds FunctionContext::pop_value_as::<bool>. -/
def popValueAsBool (ctx : FunctionContext) : Except Failure (Bool × FunctionContext) :=
  match popValue ctx with
  | .error e => .error e
  | .ok (v, c) =>
    match tryIntoBool v with
    | .error e => .error e
    | .ok b => .ok (b, c)

/-- Embeds FunctionContext::pop_value_as::<i32> / ::<u32> (same bit pattern). -/
def popValueAsI32 (ctx : FunctionContext) : Except Failure (Nat × FunctionContext) :=
  match popValue ctx with
  | .error e => .error e
  | .ok (v, c) =>
    match tryIntoI32 v with
    | .error e => .error e
    | .ok n => .ok (n, c)

/-- Embeds FunctionContext::pop_value_pair_as::<i32>: the right operand is
popped first, then the left. -/
def popValuePairAsI32 (ctx : FunctionContext) : Except Failure ((Nat × Nat) × FunctionContext) :=
  match popValueAsI32 ctx with
  | .error e => .error e
  | .ok (right, c1) =>
    match popValueAsI32 c1 with
    | .error e => .error e
    | .ok (left, c2) => .ok ((left, right), c2)

/-- Embeds FunctionContext::pop_value_triple: pops right, mid, left. -/
def popValueTriple (ctx : FunctionContext) :
    Except Failure ((RuntimeValue × RuntimeValue × RuntimeValue) × FunctionContext) :=
  match popValue ctx with
  | .error e => .error e
  | .ok (right, c1) =>
    match popValue c1 with
    | .error e => .error e
    | .ok (mid, c2) =>
      match popValue c2 with
      | .error e => .error e
      | .ok (left, c3) => .ok ((left, mid, right), c3)

/-- Embeds FunctionContext::push_frame: the new frame records the given resume
position, the current value-stack depth as value_limit, and the signature. -/
def pushFrame : FunctionContext → Nat → BlockType → FunctionContext
  | .mk m vs fs ls p, position, signature =>
    .mk m vs ({ position := position, value_limit := vs.length, signature := signature } :: fs) ls p

/-- Embeds the assignment context.position = n (used by execute_block's entry
and by the dispatcher's advance). -/
def setPosition : FunctionContext → Nat → FunctionContext
  | .mk m vs fs ls _, p => .mk m vs fs ls p

/-- Embeds VecDeque::resize(k, I32(0)) on the value stack: keeps the bottom k
values when the stack is at least that deep, otherwise pads with I32(0) on
top (the back of the deque). -/
def resizeStack (s : List RuntimeValue) (k : Nat) : List RuntimeValue :=
  if k ≤ s.length then s.drop (s.length - k)
  else List.replicate (k - s.length) (.I32 0) ++ s

/-- Embeds FunctionContext::pop_frame: pop the top frame, fail if the stack is
below its value_limit, pop the result when the signature has a value, resize
the stack to value_limit, restore position, and re-push the result. -/
def popFrame : FunctionContext → Except Failure FunctionContext
  | .mk m vs fs ls _ =>
    match fs with
    | [] => .error (.err (.FrameStack "non-empty frame stack expected"))
    | frame :: rest =>
      if frame.value_limit > vs.length then
        .error (.err (.FrameStack "non-empty frame stack expected"))
      else
        match frame.signature with
        | .Value _ =>
          match vs with
          | [] => .error (.err (.ValueStack "non-empty value stack expected"))
          | v :: vs2 =>
            .ok (.mk m (v :: resizeStack vs2 frame.value_limit) rest ls frame.position)
        | .NoResult =>
          .ok (.mk m (resizeStack vs frame.value_limit) rest ls frame.position)

/-- Embeds FunctionContext::get_local. -/
def getLocal (ctx : FunctionContext) (i : Nat) : Except Failure RuntimeValue :=
  match ctx.locals[i]? with
  | some v => .ok v
  | none => .error (.err (.Local "expected to have local with index"))

/-- Embeds FunctionContext::set_local. -/
def setLocal : FunctionContext → Nat → RuntimeValue → Except Failure FunctionContext
  | .mk m vs fs ls p, i, v =>
    if i < ls.length then
      .ok (.mk m vs fs (ls.set i v) p)
    else
      .error (.err (.Local "expected to have local with index"))

/-- Embeds 1u32.checked_shl(shift): none when the shift count is 32 or more. -/
def checkedShl1 (shift : Nat) : Option Nat :=
  if shift ≥ 32 then none else some (2 ^ shift)

/-- Embeds effective_address(offset, align) from runner.rs: the offset alone
when align is zero, otherwise (1 << (align-1)) checked-added to offset; a
checked-arithmetic failure is the "invalid memory alignment" error.  The
stack operand (the base) is never consulted. -/
def effectiveAddress (offset align : Nat) : Except Failure Nat :=
  if align = 0 then .ok offset
  else
    match checkedShl1 (align - 1) with
    | none => .error (.err (.Interpreter "invalid memory alignment"))
    | some a =>
      if a + offset < 4294967296 then .ok (a + offset)
      else .error (.err (.Interpreter "invalid memory alignment"))

/-- Embeds is-the-Else-opcode, the predicate of run_if's position scan. -/
def isElse : Opcode → Bool
  | .Else => true
  | _ => false

/-- Embeds run_if's else-index computation:
`body.iter().position(|op| *op == Opcode::Else).unwrap_or(body_len - 1)`;
the unwrap_or arm underflows (panics) on an empty body. -/
def elseIndexOf (ops : List Opcode) : Except Failure Nat :=
  match ops.findIdx? isElse with
  | some i => .ok i
  | none => natSubChecked ops.length 1

/-- Embeds context.module().memory(DEFAULT_MEMORY_INDEX): the default linear
memory lookup. -/
def getMemory (ctx : FunctionContext) : Except Failure MemoryInstance :=
  match ctx.module.memory with
  | some m => .ok m
  | none => .error (.err (.Interpreter "memory not found"))

/-- Embeds i32.wrapping_sub on 32-bit patterns (ArithmeticOps::sub, which the
spec fixes as wrapping mod 2^32; interpreter::value is outside src/). -/
def wrapSub32 (l r : Nat) : Nat :=
  (l + 4294967296 - r % 4294967296) % 4294967296

mutual

/-- Embeds Interpreter::run_instruction and the per-opcode run_* helpers of
runner.rs, for the opcodes the claims exercise.  Fuel bounds the recursion of
the embedding; the source's recursion is the Rust call stack. -/
def runInstruction : Nat → FunctionContext → Opcode →
    Except Failure (InstructionOutcome × FunctionContext)
  | 0, _, _ => .error .fuel
  | fuel+1, ctx, op =>
    match op with
    | .Unreachable => .error (.err .Trap)
    | .Nop => .ok (.RunNextInstruction, ctx)
    | .Block bt ops =>
      -- run_block: frame position is the instruction after the block
      match ctx with
      | .mk m vs fs ls p =>
        executeLoop fuel (setPosition (pushFrame (.mk m vs fs ls p) (p + 1) bt) 0) ops
    | .Loop bt ops =>
      -- run_loop: frame position is the loop opcode itself
      match ctx with
      | .mk m vs fs ls p =>
        executeLoop fuel (setPosition (pushFrame (.mk m vs fs ls p) p bt) 0) ops
    | .If bt ops =>
      match elseIndexOf ops with
      | .error e => .error e
      | .ok elseIndex =>
        match popValueAsBool ctx with
        | .error e => .error e
        | .ok (cond, .mk m vs fs ls p) =>
          let beginIndex := if cond then 0 else elseIndex + 1
          let endIndex := if cond then elseIndex + 1 else ops.length
          if beginIndex ≠ endIndex then
            executeLoop fuel (setPosition (pushFrame (.mk m vs fs ls p) (p + 1) bt) 0)
              ((ops.drop beginIndex).take (endIndex - beginIndex))
          else
            .ok (.RunNextInstruction, .mk m vs fs ls p)
    | .Else => .ok (.PopFrame 0, ctx)
    | .End => .ok (.PopFrame 0, ctx)
    | .Br k => .ok (.PopFrame k, ctx)
    | .BrIf k =>
      match popValueAsBool ctx with
      | .error e => .error e
      | .ok (cond, c) => if cond then .ok (.PopFrame k, c) else .ok (.RunNextInstruction, c)
    | .BrTable table dflt =>
      match popValueAsI32 ctx with
      | .error e => .error e
      | .ok (n, c) => .ok (.PopFrame (table[n]?.getD dflt), c)
    | .Return => .ok (.Return, ctx)
    | .Drop =>
      match popValue ctx with
      | .error e => .error e
      | .ok (_, c) => .ok (.RunNextInstruction, c)
    | .Select =>
      match popValueTriple ctx with
      | .error e => .error e
      | .ok ((left, mid, right), c) =>
        match tryIntoBool right with
        | .error _ => .error (.err (.ValueStack "expected to get int value from stack"))
        | .ok cond => .ok (.RunNextInstruction, pushValue c (if cond then left else mid))
    | .GetLocal i =>
      match ctx with
      | .mk m vs fs ls p =>
        match getLocal (.mk m vs fs ls p) i with
        | .error e => .error e
        | .ok v => .ok (.RunNextInstruction, pushValue (.mk m vs fs ls p) v)
    | .SetLocal i =>
      match popValue ctx with
      | .error e => .error e
      | .ok (v, c) =>
        match setLocal c i v with
        | .error e => .error e
        | .ok c2 => .ok (.RunNextInstruction, c2)
    | .TeeLocal i =>
      match ctx with
      | .mk m vs fs ls p =>
        match topValue (.mk m vs fs ls p) with
        | .error e => .error e
        | .ok v =>
          match setLocal (.mk m vs fs ls p) i v with
          | .error e => .error e
          | .ok c2 => .ok (.RunNextInstruction, c2)
    | .I32Load offset align | .I64Load offset align =>
      -- run_load: requests 4 bytes regardless of the loaded type's width,
      -- then decodes with from_little_endian_bytes, which is unimplemented!()
      match getMemory ctx with
      | .error e => .error e
      | .ok m =>
        match effectiveAddress offset align with
        | .error e => .error e
        | .ok ea =>
          match memGet m ea 4 with
          | .error e => .error e
          | .ok _ => .error .crash
    | .I32Store _ _ =>
      -- run_store: pops the value, then to_little_endian_bytes, which is
      -- unimplemented!()
      match popValueAsI32 ctx with
      | .error e => .error e
      | .ok _ => .error .crash
    | .CurrentMemory =>
      -- run_current_memory: pushes the page count as an I64
      match ctx with
      | .mk m vs fs ls p =>
        match getMemory (.mk m vs fs ls p) with
        | .error e => .error e
        | .ok mem => .ok (.RunNextInstruction, pushValue (.mk m vs fs ls p) (.I64 (memSize mem)))
    | .GrowMemory =>
      match popValueAsI32 ctx with
      | .error e => .error e
      | .ok (pages, .mk m vs fs ls p) =>
        match getMemory (.mk m vs fs ls p) with
        | .error e => .error e
        | .ok mem =>
          let (res, m2) := memGrow mem pages
          .ok (.RunNextInstruction, pushValue (.mk { memory := some m2 } vs fs ls p) (.I32 res))
    | .I32Const n => .ok (.RunNextInstruction, pushValue ctx (.I32 n))
    | .I64Const n => .ok (.RunNextInstruction, pushValue ctx (.I64 n))
    | .I32Sub =>
      match popValuePairAsI32 ctx with
      | .error e => .error e
      | .ok ((l, r), c) => .ok (.RunNextInstruction, pushValue c (.I32 (wrapSub32 l r)))
    | .I32Eqz =>
      match popValueAsI32 ctx with
      | .error e => .error e
      | .ok (n, c) => .ok (.RunNextInstruction, pushValue c (.I32 (if n = 0 then 1 else 0)))

/-- Embeds the dispatcher loop inside Interpreter::execute_block (after the
loop has set position := 0): read body[position] (out of bounds is a Rust
panic), run it, and act on the outcome; PopFrame pops one frame and either
propagates PopFrame(k-1) upward or returns RunInstruction. -/
def executeLoop : Nat → FunctionContext → List Opcode →
    Except Failure (InstructionOutcome × FunctionContext)
  | 0, _, _ => .error .fuel
  | fuel+1, .mk m vs fs ls p, body =>
    match body[p]? with
    | none => .error .crash
    | some instr =>
      match runInstruction fuel (.mk m vs fs ls p) instr with
      | .error e => .error e
      | .ok (.RunInstruction, c) => executeLoop fuel c body
      | .ok (.RunNextInstruction, .mk m vs fs ls p) =>
        executeLoop fuel (.mk m vs fs ls (p + 1)) body
      | .ok (.PopFrame k, c) =>
        match popFrame c with
        | .error e => .error e
        | .ok c2 => if k ≠ 0 then .ok (.PopFrame (k - 1), c2) else .ok (.RunInstruction, c2)
      | .ok (.Return, c) => .ok (.Return, c)

end

/-- Embeds Interpreter::execute_block: set position to zero, then run the
dispatcher loop over the body. -/
def executeBlock (fuel : Nat) (ctx : FunctionContext) (body : List Opcode) :
    Except Failure (InstructionOutcome × FunctionContext) :=
  executeLoop fuel (setPosition ctx 0) body

/-- Embeds FunctionContext::new: locals are exactly the arguments (the source
performs no zero-initialization of declared locals), position starts at 0, and
one outer frame is pushed whose position is body.len() - 1 (a usize underflow,
hence a panic, when the body is empty) and whose signature is the function's
return type. -/
def functionContextNew (module : ModuleInstance) (f : FunctionType) (body : List Opcode)
    (args : List RuntimeValue) : Except Failure FunctionContext :=
  match natSubChecked body.length 1 with
  | .error e => .error e
  | .ok p =>
    let ctx : FunctionContext :=
      { module := module, value_stack := [], frame_stack := [], locals := args, position := 0 }
    .ok (pushFrame ctx p (retBlockType f))

/-- Embeds Interpreter::run_function, also exposing the final module state (the
source drops its freshly created module when the call returns). -/
def runFunctionCore (fuel : Nat) (f : FunctionType) (body : List Opcode)
    (args : List RuntimeValue) : Except Failure (Option RuntimeValue × ModuleInstance) :=
  match moduleInstanceNew Module.defaultModule with
  | .error _ => .error .crash
  | .ok module =>
    match functionContextNew module f body args with
    | .error e => .error e
    | .ok ctx =>
      match executeBlock fuel ctx body with
      | .error e => .error e
      | .ok (_, ctx2) =>
        match retBlockType f with
        | .Value _ =>
          match popValue ctx2 with
          | .error e => .error e
          | .ok (v, ctx3) => .ok (some v, ctx3.module)
        | .NoResult => .ok (none, ctx2.module)

/-- Embeds Interpreter::run_function's public result (the returned value). -/
def runFunction (fuel : Nat) (f : FunctionType) (body : List Opcode)
    (args : List RuntimeValue) : Except Failure (Option RuntimeValue) :=
  (runFunctionCore fuel f body args).map (·.1)

/-- Embeds the registry map of ProgramInstanceEssence (program.rs): a
name-to-instance association list standing for the HashMap. -/
abbrev Registry := List (String × ModuleInstance)

/-- Embeds ProgramInstanceEssence::module: look a module instance up by name. -/
def lookupModule (r : Registry) (name : String) : Option ModuleInstance :=
  (r.find? (fun p => p.1 == name)).map (·.2)

/-- Embeds ProgramInstance::add_module (program.rs): an occupied entry is a
Program error and leaves the map untouched; a vacant entry instantiates the
module (propagating its error before any insertion) and stores the instance.
The returned registry is the map after the call. -/
def addModule (r : Registry) (name : String) (m : Module) : Except Error Unit × Registry :=
  match lookupModule r name with
  | some _ => (.error (.Program "module already instantiated"), r)
  | none =>
    match moduleInstanceNew m with
    | .error e => (.error e, r)
    | .ok inst => (.ok (), (name, inst) :: r)

/-- Signature i32 -> i32, used by the source's own test helper run_function_i32. -/
def ftyI32toI32 : FunctionType := { params := [.i32], ret := some .i32 }

/-- Signature () -> i32. -/
def ftyNoneToI32 : FunctionType := { params := [], ret := some .i32 }

/-- A context with a four-byte linear memory and a large i32 on the stack. -/
def c1ctx : FunctionContext :=
  { module := { memory := some { data := [0, 0, 0, 0], maxPages := none } },
    value_stack := [.I32 7000], frame_stack := [], locals := [], position := 0 }

/-- A context whose memory holds the given bytes, with an empty stack. -/
def c2ctx (d : List Nat) : FunctionContext :=
  { module := { memory := some { data := d, maxPages := none } },
    value_stack := [], frame_stack := [], locals := [], position := 0 }

/-- A six-byte linear memory: large enough for a 4-byte read at 0, too small
for an 8-byte read at 0. -/
def mem6 : MemoryInstance := { data := [0, 0, 0, 0, 0, 0], maxPages := none }

/-- A context over the six-byte memory. -/
def c3ctx : FunctionContext :=
  { module := { memory := some mem6 }, value_stack := [], frame_stack := [],
    locals := [], position := 0 }

/-- Truncation of the value stack down to its bottom k values, the literal
reading of the spec's "truncate the value stack down to value_limit" (it never
grows the stack). -/
def truncStack (s : List RuntimeValue) (k : Nat) : List RuntimeValue :=
  s.drop (s.length - k)

/-- The pop_frame that the claim's words describe: pop the result, truncate
(rather than resize) to value_limit, restore position, re-push the result.
Differs from the source's popFrame only in using truncStack where VecDeque
resize would pad. -/
def popFrameClaim : FunctionContext → Except Failure FunctionContext
  | .mk m vs fs ls _ =>
    match fs with
    | [] => .error (.err (.FrameStack "non-empty frame stack expected"))
    | frame :: rest =>
      if frame.value_limit > vs.length then
        .error (.err (.FrameStack "non-empty frame stack expected"))
      else
        match frame.signature with
        | .Value _ =>
          match vs with
          | [] => .error (.err (.ValueStack "non-empty value stack expected"))
          | v :: vs2 =>
            .ok (.mk m (v :: truncStack vs2 frame.value_limit) rest ls frame.position)
        | .NoResult =>
          .ok (.mk m (truncStack vs frame.value_limit) rest ls frame.position)

/-- A context whose top frame has a Value signature and a value_limit equal to
the current stack depth: the corner where resize pads instead of truncating. -/
def padCtx : FunctionContext :=
  { module := { memory := none }, value_stack := [.I32 5],
    frame_stack := [ { position := 9, value_limit := 1, signature := .Value .i32 } ],
    locals := [], position := 0 }

/-- A context with one value on the stack and a live frame whose value_limit is
1: executing drop takes the depth below the limit while the frame stays live. -/
def dropCtx : FunctionContext :=
  { module := { memory := none }, value_stack := [.I32 1],
    frame_stack := [ { position := 2, value_limit := 1, signature := .NoResult },
                     { position := 2, value_limit := 0, signature := .Value .i32 } ],
    locals := [], position := 0 }

/-- Two nested empty blocks around br 1: the branch must unwind both block
frames and resume after the outer block. -/
def nestedBrBody : List Opcode :=
  [ .Block .NoResult [ .Block .NoResult [ .Br 1, .End ], .End ],
    .I32Const 7,
    .End ]

/-- A loop that re-enters once via br 0 (the second iteration sees the local
set to 1 and exits via br_if 1 through the enclosing block). -/
def loopReentryBody : List Opcode :=
  [ .Block .NoResult
      [ .Loop .NoResult
          [ .GetLocal 0, .BrIf 1, .I32Const 1, .SetLocal 0, .Br 0, .End ],
        .End ],
    .GetLocal 0,
    .End ]

/-- The if-then-else body of the claim (and of the source's if_then_else test). -/
def ifElseBody : List Opcode :=
  [ .GetLocal 0,
    .If (.Value .i32) [ .I32Const 10, .Else, .I32Const 20, .End ],
    .End ]

/-- The body of the source's nop test. -/
def c10nopBody : List Opcode := [ .Nop, .I32Const 20, .Nop, .End ]

/-- The body of the source's trap test. -/
def c10trapBody : List Opcode := [ .Unreachable, .End ]

theorem resizeStack_length (s : List RuntimeValue) (k : Nat) :
    (resizeStack s k).length = k := by
  unfold resizeStack
  split
  next h =>
    rw [List.length_drop]
    omega
  next h =>
    rw [List.length_append, List.length_replicate]
    omega

/-- Claim C1.  The source's address computation contradicts the claim: the
effective address is offset when align is 0 and (1 << (align-1)) + offset
otherwise, so the align immediate changes the address (104 vs 100 for
offset 100), and the stack operand is never popped: with a 4-byte memory and
base I32(7000) on the stack, an i32.load with offset 0 and align 0 reaches the
unimplemented byte decoder (no bounds trap at address 0, although base+offset
would be far out of bounds), while the same load with align 2 traps because
the align term moved the address. -/
theorem c1_effective_address_bug :
    effectiveAddress 100 3 = .ok 104
    ∧ effectiveAddress 100 0 = .ok 100
    ∧ runInstruction 1 c1ctx (.I32Load 0 0) = .error .crash
    ∧ runInstruction 1 c1ctx (.I32Load 0 2) = .error (.err .Trap) :=
  ⟨rfl, rfl, rfl, rfl⟩

/-- Claim C2.  run_current_memory pushes the page count as an I64 runtime
value, not the I32 the claim (and the Wasm spec) requires: with any one-page
memory it pushes I64 1. -/
theorem c2_current_memory_pushes_i64 (d : List Nat) (h : d.length = pageSize) :
    runInstruction 1 (c2ctx d) .CurrentMemory
      = .ok (.RunNextInstruction, pushValue (c2ctx d) (.I64 1)) := by
  simp only [runInstruction, c2ctx, getMemory, memSize, h, pageSize]

/-- Claim C2 witness: a one-page memory of zero bytes. -/
theorem c2_current_memory_pushes_i64_witness :
    (List.replicate pageSize (0 : Nat)).length = pageSize
    ∧ runInstruction 1 (c2ctx (List.replicate pageSize 0)) .CurrentMemory
        = .ok (.RunNextInstruction, pushValue (c2ctx (List.replicate pageSize 0)) (.I64 1)) :=
  ⟨List.length_replicate pageSize 0,
    c2_current_memory_pushes_i64 (List.replicate pageSize 0) (List.length_replicate pageSize 0)⟩

/-- Claim C3.  run_load requests 4 bytes for every plain load, including
i64.load: on a six-byte memory an 8-byte read at address 0 would trap, but the
i64.load succeeds in its 4-byte memory read and then hits the unimplemented
little-endian decoder instead of trapping. -/
theorem c3_i64_load_reads_4_bytes :
    memGet mem6 0 8 = .error (.err .Trap)
    ∧ memGet mem6 0 4 = .ok [0, 0, 0, 0]
    ∧ runInstruction 1 c3ctx (.I64Load 0 0) = .error .crash :=
  ⟨rfl, rfl, rfl⟩

/-- Claim C4.  FunctionContext::new sets locals to exactly the argument vector
and never zero-initializes the declared non-argument locals (it does not even
receive the local declarations), so get_local on the first non-argument index
fails with a Local error instead of returning a zero value. -/
theorem c4_locals_not_zero_initialized :
    ∃ ctx, functionContextNew { memory := none } ftyI32toI32 [ .End ] [ .I32 5 ] = .ok ctx
      ∧ ctx.locals = [ .I32 5 ]
      ∧ getLocal ctx 1 = .error (.err (.Local "expected to have local with index")) :=
  ⟨_, rfl, rfl, rfl⟩

/-- Claim C5 (counterexample).  At padCtx (stack depth equal to value_limit
with a Value signature) the source's pop_frame resizes the stack upward,
padding with I32 0, so it differs from the claim's pop-truncate-repush
description; and executing drop in dropCtx leaves the stack depth (0) below
the live top frame's value_limit (1), refuting the claim's universal depth
invariant for live frames. -/
theorem c5_pop_frame_claim_counterexample :
    popFrame padCtx ≠ popFrameClaim padCtx
    ∧ (∃ c, runInstruction 1 dropCtx .Drop = .ok (.RunNextInstruction, c)
        ∧ ∃ f fs2, c.frame_stack = f :: fs2 ∧ c.value_stack.length < f.value_limit) := by
  constructor
  · decide
  · exact ⟨_, rfl, _, _, rfl, by decide⟩

/-- Claim C5 (amended).  Whenever pop_frame succeeds on a context whose top
frame is F, the entry stack depth was at least F.value_limit; the result pops
one value when F has a Value signature, resizes the remaining stack to
F.value_limit (padding with I32 0 when the result was popped from at or below
the limit), restores position to F.position, and re-pushes the result; the
final depth is F.value_limit, plus one when F had a result. -/
theorem c5_pop_frame_contract (m : ModuleInstance) (vs : List RuntimeValue)
    (fs : List BlockFrame) (ls : List RuntimeValue) (p : Nat) (frame : BlockFrame)
    (rest : List BlockFrame) (ctx' : FunctionContext)
    (hfs : fs = frame :: rest)
    (h : popFrame (.mk m vs fs ls p) = .ok ctx') :
    frame.value_limit ≤ vs.length
    ∧ ctx'.position = frame.position
    ∧ ctx'.frame_stack = rest
    ∧ (∀ t, frame.signature = .Value t →
        ∃ v vs2, vs = v :: vs2
          ∧ ctx'.value_stack = v :: resizeStack vs2 frame.value_limit
          ∧ ctx'.value_stack.length = frame.value_limit + 1)
    ∧ (frame.signature = .NoResult →
        ctx'.value_stack = resizeStack vs frame.value_limit
          ∧ ctx'.value_stack.length = frame.value_limit) := by
  subst hfs
  obtain ⟨fpos, flim, fsig⟩ := frame
  simp only [popFrame] at h
  cases fsig with
  | Value t =>
    cases vs with
    | nil =>
      split at h <;> simp at h
    | cons v vs2 =>
      split at h
      · simp at h
      · simp only [Except.ok.injEq] at h
        subst h
        next hl =>
        refine ⟨by simp at hl ⊢; omega, rfl, rfl, ?_, ?_⟩
        · intro t' _
          exact ⟨v, vs2, rfl, rfl, by simp [resizeStack_length]⟩
        · intro hns
          cases hns
  | NoResult =>
    split at h
    · simp at h
    · simp only [Except.ok.injEq] at h
      subst h
      next hl =>
      refine ⟨by simp at hl ⊢; omega, rfl, rfl, ?_, ?_⟩
      · intro t ht
        cases ht
      · intro _
        exact ⟨rfl, by simp [resizeStack_length]⟩

/-- Claim C5 witness: the contract applied to a concrete successful pop of a
Value frame with value_limit 1 from a two-value stack. -/
theorem c5_pop_frame_contract_witness :
    popFrame (.mk { memory := none } [.I32 3, .I32 4] [⟨7, 1, .Value .i32⟩] [] 0)
      = .ok (.mk { memory := none } [.I32 3, .I32 4] [] [] 7)
    ∧ (1 : Nat) ≤ ([(RuntimeValue.I32 3), .I32 4] : List RuntimeValue).length := by
  have := c5_pop_frame_contract { memory := none } [.I32 3, .I32 4]
    [⟨7, 1, .Value .i32⟩] [] 0 ⟨7, 1, .Value .i32⟩ []
    (.mk { memory := none } [.I32 3, .I32 4] [] [] 7) rfl rfl
  exact ⟨rfl, this.1⟩

/-- Claim C6.  br k returns PopFrame(k); at each dispatcher level a PopFrame
outcome pops exactly one frame, propagating PopFrame(k-1) upward while k > 0
and returning RunInstruction at 0 so the caller re-reads the restored
position; loop frames record the loop opcode itself as their position while
block frames record the instruction after the block; concretely, br 1 inside
two nested blocks unwinds both frames and execution resumes after the outer
block (result 7), and br 0 inside a loop re-enters the loop (the second
iteration observes the local written by the first and exits via br_if 1). -/
theorem c6_branch_unwinding :
    (∀ fuel ctx k, runInstruction (fuel + 1) ctx (.Br k) = .ok (.PopFrame k, ctx))
    ∧ (∀ fuel m vs fs ls p body k, body[p]? = some (.Br k) →
        executeLoop (fuel + 2) (.mk m vs fs ls p) body
          = match popFrame (.mk m vs fs ls p) with
            | .error e => .error e
            | .ok c2 => if k ≠ 0 then .ok (.PopFrame (k - 1), c2)
                        else .ok (.RunInstruction, c2))
    ∧ (∀ fuel ctx bt ops, runInstruction (fuel + 1) ctx (.Loop bt ops)
          = executeLoop fuel (setPosition (pushFrame ctx ctx.position bt) 0) ops)
    ∧ (∀ fuel ctx bt ops, runInstruction (fuel + 1) ctx (.Block bt ops)
          = executeLoop fuel (setPosition (pushFrame ctx (ctx.position + 1) bt) 0) ops)
    ∧ runFunction 100 ftyNoneToI32 nestedBrBody [] = .ok (some (.I32 7))
    ∧ runFunction 100 ftyI32toI32 loopReentryBody [.I32 0] = .ok (some (.I32 1)) := by
  refine ⟨?_, ?_, ?_, ?_, rfl, rfl⟩
  · intro fuel ctx k
    rfl
  · intro fuel m vs fs ls p body k h
    simp only [executeLoop, h, runInstruction]
  · intro fuel ctx bt ops
    cases ctx
    rfl
  · intro fuel ctx bt ops
    cases ctx
    rfl

/-- Claim C6 witness: the dispatcher conjunct applied to the one-opcode body
br 0 with a single NoResult frame: the frame is popped and RunInstruction is
returned with position restored to 5. -/
theorem c6_branch_unwinding_witness :
    executeLoop 2 (.mk { memory := none } [] [⟨5, 0, .NoResult⟩] [] 0) [.Br 0]
      = .ok (.RunInstruction, .mk { memory := none } [] [] [] 5) := by
  have h := c6_branch_unwinding.2.1 0 { memory := none } [] [⟨5, 0, .NoResult⟩] [] 0
    [.Br 0] 0 rfl
  simpa [popFrame, resizeStack] using h

/-- Claim C7.  run_if pops an i32 condition; when it is non-zero it executes
the prefix of the body up to and including the first Else, otherwise the
suffix after the Else (the whole body respectively nothing when no Else
exists), pushing no frame when the selected arm is empty; on the claim's
literal body, argument I32 0 yields I32 20 and argument I32 1 yields I32 10. -/
theorem c7_if_then_else :
    (∀ fuel m vs fs ls p cnd bt ops e,
      ops.findIdx? isElse = some e →
      runInstruction (fuel + 1) (.mk m (.I32 cnd :: vs) fs ls p) (.If bt ops)
        = (if cnd ≠ 0 then
             executeLoop fuel (setPosition (pushFrame (.mk m vs fs ls p) (p + 1) bt) 0)
               (ops.take (e + 1))
           else if e + 1 = ops.length then
             .ok (.RunNextInstruction, .mk m vs fs ls p)
           else
             executeLoop fuel (setPosition (pushFrame (.mk m vs fs ls p) (p + 1) bt) 0)
               (ops.drop (e + 1))))
    ∧ runFunction 100 ftyI32toI32 ifElseBody [.I32 0] = .ok (some (.I32 20))
    ∧ runFunction 100 ftyI32toI32 ifElseBody [.I32 1] = .ok (some (.I32 10)) := by
  refine ⟨?_, rfl, rfl⟩
  intro fuel m vs fs ls p cnd bt ops e h
  simp only [runInstruction, elseIndexOf, h, popValueAsBool, popValue, tryIntoBool]
  by_cases hc : cnd = 0
  · subst hc
    simp only [bne_self_eq_false, Bool.false_eq_true, if_false, ite_not, if_true]
    by_cases hEnd : e + 1 = ops.length
    · simp [hEnd]
    · simp only [hEnd, if_false, Ne, not_false_iff, ite_true]
      have h2 : List.take (ops.length - (e + 1)) (List.drop (e + 1) ops)
          = List.drop (e + 1) ops := by
        rw [← List.length_drop]
        exact List.take_length _
      rw [h2]
  · have hb : (cnd != 0) = true := by simpa using hc
    simp only [hb, if_true, hc, if_false, ite_not]
    simp

/-- Claim C7 witness: the general conjunct applied to the literal if body with
condition 1: the then-arm, the prefix up to and including Else, is entered. -/
theorem c7_if_then_else_witness :
    runInstruction 1 (.mk { memory := none } [.I32 1] [] [] 0)
        (.If (.Value .i32) [ .I32Const 10, .Else, .I32Const 20, .End ])
      = executeLoop 0 (setPosition (pushFrame (.mk { memory := none } [] [] [] 0) 1
          (.Value .i32)) 0) [ .I32Const 10, .Else ] := by
  have h := c7_if_then_else.1 0 { memory := none } [] [] [] 0 1 (.Value .i32)
    [ .I32Const 10, .Else, .I32Const 20, .End ] 1 rfl
  simpa using h

/-- Claim C8.  add_module returns a Program error exactly when the name is
already registered, and then leaves the registry unchanged (as it does on any
error); on success the new instance is inserted and a module lookup on that
name returns it. -/
theorem c8_add_module (r : Registry) (name : String) (m : Module) :
    ((∃ msg, (addModule r name m).1 = .error (.Program msg))
        ↔ (lookupModule r name).isSome)
    ∧ (∀ e, (addModule r name m).1 = .error e → (addModule r name m).2 = r)
    ∧ ((addModule r name m).1 = .ok () →
        ∃ inst, moduleInstanceNew m = .ok inst
          ∧ (addModule r name m).2 = (name, inst) :: r
          ∧ lookupModule (addModule r name m).2 name = some inst) := by
  unfold addModule
  cases hlk : lookupModule r name with
  | some inst0 =>
    refine ⟨⟨fun _ => rfl, fun _ => ⟨"module already instantiated", rfl⟩⟩, ?_, ?_⟩
    · intro e _
      rfl
    · intro h
      exact Except.noConfusion h
  | none =>
    cases hmi : moduleInstanceNew m with
    | error e0 =>
      have hnotprog : ∀ msg, e0 ≠ .Program msg := by
        intro msg
        unfold moduleInstanceNew at hmi
        split at hmi
        · simp at hmi
        · simp only [Except.error.injEq] at hmi
          subst hmi
          intro hcc
          cases hcc
      refine ⟨⟨?_, ?_⟩, ?_, ?_⟩
      · rintro ⟨msg, hmsg⟩
        simp only [Except.error.injEq] at hmsg
        exact absurd hmsg (hnotprog msg)
      · intro hsome
        simp at hsome
      · intro e _
        rfl
      · intro h
        exact Except.noConfusion h
    | ok inst =>
      refine ⟨⟨?_, ?_⟩, ?_, ?_⟩
      · rintro ⟨msg, hmsg⟩
        exact Except.noConfusion hmsg
      · intro hsome
        simp at hsome
      · intro e he
        exact Except.noConfusion he
      · intro _
        refine ⟨inst, rfl, rfl, ?_⟩
        simp [lookupModule, List.find?]

/-- Claim C8 witness: registering a module under a fresh name into the empty
registry succeeds and a lookup returns the stored instance. -/
theorem c8_add_module_witness :
    (addModule [] "m" {}).1 = .ok ()
    ∧ ∃ inst, moduleInstanceNew {} = .ok inst
        ∧ (addModule [] "m" {}).2 = ("m", inst) :: []
        ∧ lookupModule (addModule [] "m" {}).2 "m" = some inst :=
  ⟨rfl, (c8_add_module [] "m" {}).2.2 rfl⟩

/-- Claim C9.  run_function is deterministic: the embedded interpreter is a
pure function of the signature, body, argument vector and fuel, so two
invocations on identical inputs yield the identical result (value or error)
and the identical final module state (the source builds a fresh default module
per call). -/
theorem c9_run_function_deterministic (fuel fuel' : Nat) (f f' : FunctionType)
    (body body' : List Opcode) (args args' : List RuntimeValue)
    (h1 : fuel = fuel') (h2 : f = f') (h3 : body = body') (h4 : args = args') :
    runFunctionCore fuel f body args = runFunctionCore fuel' f' body' args' := by
  subst h1
  subst h2
  subst h3
  subst h4
  rfl

/-- Claim C9 witness: two textually separate invocations on the nop body agree. -/
theorem c9_run_function_deterministic_witness :
    runFunctionCore 20 { params := [], ret := none } [ .Nop, .End ] []
      = runFunctionCore 20 { params := [], ret := none } [ .Nop, .End ] [] :=
  c9_run_function_deterministic 20 20 { params := [], ret := none }
    { params := [], ret := none } [ .Nop, .End ] [ .Nop, .End ] [] [] rfl rfl rfl rfl

/-- Claim C10.  The constructor's body.len() - 1 underflows (a panic) exactly
on the empty body and succeeds on every non-empty body; the dispatcher's
body[position] indexing panics when position is past the end; and on validated
End-terminated bodies execution is total: the source's nop test runs to
I32 20 and its trap test ends in the Trap error, neither hitting a panic. -/
theorem c10_totality_on_validated_bodies :
    (∀ m f args, functionContextNew m f [] args = .error .crash)
    ∧ (∀ m f body args, body ≠ [] → ∃ ctx, functionContextNew m f body args = .ok ctx)
    ∧ (∀ fuel m vs fs ls p body, body.length ≤ p →
        executeLoop (fuel + 1) (.mk m vs fs ls p) body = .error .crash)
    ∧ runFunction 100 ftyI32toI32 c10nopBody [.I32 0] = .ok (some (.I32 20))
    ∧ runFunction 100 ftyI32toI32 c10trapBody [.I32 0] = .error (.err .Trap) := by
  refine ⟨?_, ?_, ?_, rfl, rfl⟩
  · intro m f args
    rfl
  · intro m f body args h
    unfold functionContextNew natSubChecked
    have : 1 ≤ body.length := by
      cases body with
      | nil => simp at h
      | cons a l => simp
    simp [this]
  · intro fuel m vs fs ls p body h
    have hnone : body[p]? = none := by
      rw [List.getElem?_eq_none_iff]
      exact h
    simp only [executeLoop, hnone]

/-- Claim C10 witness: the constructor succeeds on the one-opcode body End,
and a dispatcher started past the end of that body panics. -/
theorem c10_totality_witness :
    (∃ ctx, functionContextNew { memory := none } ftyI32toI32 [ .End ] [] = .ok ctx)
    ∧ executeLoop 1 (.mk { memory := none } [] [] [] 1) [ .End ] = .error .crash :=
  ⟨c10_totality_on_validated_bodies.2.1 { memory := none } ftyI32toI32 [ .End ] []
      (by simp),
    c10_totality_on_validated_bodies.2.2.1 0 { memory := none } [] [] [] 1 [ .End ]
      (by simp)⟩

end WasmRunner

